import Mathlib

/-!
Verification of the FTC Portal team-management application (`main.py`).

The development shallowly embeds the authentication / authorization /
team-provisioning core of the program: the relational rows it stores, the
process-wide globals (`dbConnection`, `currentUser`, `teamInfo`,
`dbUrlUsed`), and the operations `connectDb`, `closeDb`,
`LoginFrame.attemptLogin`, `LoginFrame.attemptJoin`,
`LoginFrame.attemptCreateTeam`, `createDatabaseSchema`, and the
`AdminFrame` actions.  External effects (psycopg2 connectivity, the FTC
Scout API, user confirmation dialogs, statement-level database failures)
are explicit boolean / option parameters, so every operation is a pure
executable function on an explicit application state.
-/

/-- A row of the `Users` table (`createDatabaseSchema`, main.py).
`created_at` is elided: no modelled operation branches on it. -/
structure UserRow where
  user_id : Nat
  username : String
  hashed_password : String
  role_id : Option Nat
  is_pending : Bool
  is_admin : Bool
deriving DecidableEq

/-- A row of the `TeamInfo` table. -/
structure TeamRow where
  team_number : Int
  team_name : String
  team_password_hash : String
deriving DecidableEq

/-- A row of the `Roles` table. -/
structure RoleRow where
  role_id : Nat
  role_name : String
deriving DecidableEq

/-- A row of the `Attendance` table (fields relevant to the schema script). -/
structure AttendanceRow where
  attendance_id : Nat
  user_id : Nat
  meeting_id : Nat
  is_present : Bool
deriving DecidableEq

/-- The database the single connection points at.  `Meetings`, `Guides`
and `GuideVideos` are elided: no operation modelled here reads or writes
their rows (the schema script only drops / recreates them empty). -/
structure Db where
  teamInfo : List TeamRow
  roles : List RoleRow
  users : List UserRow
  attendance : List AttendanceRow
deriving DecidableEq

def Db.empty : Db := ⟨[], [], [], []⟩

/-- The global `currentUser` dictionary built by `attemptLogin` /
`attemptCreateTeam` (`user_id`, `username`, `is_admin`, `role_id`). -/
structure SessionUser where
  user_id : Nat
  username : String
  is_admin : Bool
  role_id : Option Nat
deriving DecidableEq

/-- Process-wide state: the module-level globals of main.py.  Connections
are modelled by numeric ids: `conns` is the set of connections currently
open anywhere in the process, `handle` is the global `dbConnection`
variable (the only reference the program keeps), and `connCounter`
generates fresh ids. -/
structure AppState where
  db : Db
  conns : List Nat
  handle : Option Nat
  connCounter : Nat
  currentUser : Option SessionUser
  teamInfo : Option (Int × String)
  dbUrlUsed : Option String
deriving DecidableEq

def initState : AppState := ⟨Db.empty, [], none, 0, none, none, none⟩

/-! ### Python-level helpers -/

/-- Python truthiness of the `dbUrlUsed` global (`None` and `""` are falsy). -/
def pyTruthy (o : Option String) : Bool :=
  match o with
  | some s => s ≠ ""
  | none => false

/-- Python `a or b` for `targetDbUrl = dbUrlUsed or entry` in `attemptLogin`. -/
def pyOr (a : Option String) (b : String) : String :=
  match a with
  | some s => if s = "" then b else s
  | none => b

/-- ASCII whitespace recognised by Python `str.strip()` (unicode elided). -/
def isSpaceChar (c : Char) : Bool :=
  c == ' ' || c == '\t' || c == '\n' || c == '\r' || c == '\x0b' || c == '\x0c'

def dropLeadingSpace : List Char → List Char
  | [] => []
  | c :: cs => if isSpaceChar c then dropLeadingSpace cs else c :: cs

/-- Python `str.strip()`. -/
def pyStrip (s : String) : String :=
  ⟨(dropLeadingSpace ((dropLeadingSpace s.toList).reverse)).reverse⟩

/-- Split a list at the first occurrence of `c`; the separator is dropped. -/
def splitFirst (c : Char) : List Char → Option (List Char × List Char)
  | [] => none
  | x :: xs =>
    if x = c then some ([], xs)
    else
      match splitFirst c xs with
      | some (a, b) => some (x :: a, b)
      | none => none

def dropPrefixChars : List Char → List Char → Option (List Char)
  | [], l => some l
  | _ :: _, [] => none
  | p :: ps, c :: cs => if c = p then dropPrefixChars ps cs else none

/-- `re.match(r"postgresql://[^@]+@[^/]+/.+", url)` from `attemptJoin` /
`attemptCreateTeam`: the literal scheme, a nonempty run without an at-sign,
the first at-sign, a nonempty run without a slash, the next slash, and at
least one following character (`.` does not match a newline). -/
def validPgUrl (s : String) : Bool :=
  match dropPrefixChars "postgresql://".toList s.toList with
  | none => false
  | some rest =>
    match splitFirst '@' rest with
    | none => false
    | some (a, rest2) =>
      if a.isEmpty then false
      else
        match splitFirst '/' rest2 with
        | none => false
        | some (b, c) =>
          if b.isEmpty then false
          else
            match c with
            | [] => false
            | x :: _ => x != '\n'

def digitsToNatAux : Nat → List Char → Option Nat
  | acc, [] => some acc
  | acc, c :: cs =>
    if '0' ≤ c ∧ c ≤ '9' then digitsToNatAux (acc * 10 + (c.toNat - '0'.toNat)) cs
    else none

def digitsToNat : List Char → Option Nat
  | [] => none
  | l => digitsToNatAux 0 l

/-- Python `int(str)` as used on `teamNumberStr`: optional surrounding
whitespace, an optional sign, then decimal digits (digit-group
underscores elided).  Accepts zero and negatives; `ValueError` is `none`. -/
def pyInt (s : String) : Option Int :=
  match (pyStrip s).toList with
  | '-' :: rest => (digitsToNat rest).map (fun n => -(n : Int))
  | '+' :: rest => (digitsToNat rest).map (fun n => (n : Int))
  | l => (digitsToNat l).map (fun n => (n : Int))

example : pyInt "254" = some 254 := by decide
example : pyInt " -7 " = some (-7) := by decide
example : pyInt "0" = some 0 := by decide
example : pyInt "7x" = none := by decide
example : validPgUrl "postgresql://user:pw@host:5432/db" = true := by decide
example : validPgUrl "postgres://user:pw@host:5432/db" = false := by decide
example : validPgUrl "postgresql://@host/db" = false := by decide
example : pyStrip "  alice " = "alice" := by decide

/-! ### Database utilities (main.py lines 67-110) -/

/-- `connectDb(dbUrl)`: on success `psycopg2.connect` opens a fresh
connection and the global `dbConnection` is overwritten with it; the
function never closes the previously held connection.  On failure the
global is set to `None` (again without closing a previously held
connection).  `connOk` stands for reachability of the database at the
given URL. -/
def connectDb (st : AppState) (connOk : Bool) : AppState × Bool :=
  if connOk then
    ({ st with conns := st.conns ++ [st.connCounter],
               handle := some st.connCounter,
               connCounter := st.connCounter + 1 }, true)
  else
    ({ st with handle := none }, false)

/-- `closeDb()`: closes the connection held in the global `dbConnection`,
if any, and clears the global. -/
def closeDb (st : AppState) : AppState :=
  match st.handle with
  | some id => { st with conns := st.conns.erase id, handle := none }
  | none => st

/-- `SELECT ... FROM Users WHERE username = %s` (usernames are unique by
schema constraint, but the embedding keeps full SQL semantics: all
matching rows, in table order). -/
def findUsersByName (db : Db) (u : String) : List UserRow :=
  db.users.filter (fun r => r.username = u)

/-- Next value of the `Users.user_id` SERIAL sequence (fresh schema). -/
def nextUserId (db : Db) : Nat :=
  (db.users.map (fun r => r.user_id)).foldr Nat.max 0 + 1

/-- Next value of the `Roles.role_id` SERIAL sequence (fresh schema). -/
def nextRoleId (db : Db) : Nat :=
  (db.roles.map (fun r => r.role_id)).foldr Nat.max 0 + 1

/-! ### Login (LoginFrame.attemptLogin, main.py lines 439-506) -/

inductive LoginOutcome
  | emptyFields
  | missingUrl
  | connectionFailed
  | invalidCredentials
  | pendingApproval
  | inconsistentTeam
  | authenticated
deriving DecidableEq

structure LoginResult where
  st : AppState
  outcome : LoginOutcome
  errMsg : Option String
  infoMsg : Option String
  nav : Option String
deriving DecidableEq

/-- `LoginFrame.attemptLogin`.  `chk` is `checkPassword` (bcrypt.checkpw,
opaque to this embedding: any plaintext-digest predicate), `usernameIn` and
`password` the entry contents, `urlEntry` the DB-URL entry, `connOk`
database reachability.  Mirrors the source control flow statement by
statement; dialog texts are the source literals (exception details
elided). -/
def attemptLogin (chk : String → String → Bool) (st : AppState)
    (usernameIn password urlEntry : String) (connOk : Bool) : LoginResult :=
  let username := pyStrip usernameIn
  let targetDbUrl := pyOr st.dbUrlUsed (pyStrip urlEntry)
  if username = "" ∨ password = "" then
    ⟨st, .emptyFields, some "Username and password cannot be empty.", none, none⟩
  else if targetDbUrl = "" then
    ⟨st, .missingUrl, some "Database URL is required.", none, none⟩
  else
    match connectDb st connOk with
    | (st1, false) =>
      ⟨st1, .connectionFailed, some "Could not connect to the database.", none, none⟩
    | (st1, true) =>
      match findUsersByName st1.db username with
      | userData :: _ =>
        if chk password userData.hashed_password then
          if userData.is_pending then
            ⟨closeDb st1, .pendingApproval, none,
              some "Your account is awaiting admin approval.", none⟩
          else
            let cu : SessionUser :=
              ⟨userData.user_id, userData.username, userData.is_admin, userData.role_id⟩
            let st2 := { st1 with currentUser := some cu }
            match st2.db.teamInfo with
            | t :: _ =>
              let st3 := { st2 with teamInfo := some (t.team_number, t.team_name) }
              let st4 :=
                if pyTruthy st.dbUrlUsed then st3
                else { st3 with dbUrlUsed := some targetDbUrl }
              ⟨st4, .authenticated, none, none, some "DashboardFrame"⟩
            | [] =>
              ⟨{ closeDb st2 with currentUser := none }, .inconsistentTeam,
                some "Could not retrieve team information from the database.", none, none⟩
        else
          ⟨closeDb st1, .invalidCredentials,
            some "Invalid username or password.", none, none⟩
      | [] =>
        ⟨closeDb st1, .invalidCredentials,
          some "Invalid username or password.", none, none⟩

/-! ### Join request (LoginFrame.attemptJoin, main.py lines 509-558) -/

inductive JoinOutcome
  | emptyFields
  | badUrl
  | connectionFailed
  | usernameTaken
  | requested
  | insertFailed
deriving DecidableEq

structure JoinResult where
  st : AppState
  outcome : JoinOutcome
  errMsg : Option String
  infoMsg : Option String
deriving DecidableEq

/-- `LoginFrame.attemptJoin`.  `hash` is `hashPassword` (bcrypt.hashpw
with a fresh salt, opaque to this embedding), `insertOk` stands for the
pending-user INSERT succeeding at the database. -/
def attemptJoin (hash : String → String) (st : AppState)
    (usernameIn password urlIn : String) (connOk insertOk : Bool) : JoinResult :=
  let username := pyStrip usernameIn
  let targetDbUrl := pyStrip urlIn
  if username = "" ∨ password = "" ∨ targetDbUrl = "" then
    ⟨st, .emptyFields, some "Username, password, and Database URL are required.", none⟩
  else if ¬ validPgUrl targetDbUrl then
    ⟨st, .badUrl, some "Invalid PostgreSQL Database URL format.", none⟩
  else
    match connectDb st connOk with
    | (st1, false) =>
      ⟨st1, .connectionFailed, some "Could not connect to the database.", none⟩
    | (st1, true) =>
      if findUsersByName st1.db username ≠ [] then
        ⟨closeDb st1, .usernameTaken,
          some "Username already exists. Please choose another.", none⟩
      else if insertOk then
        let newUser : UserRow :=
          ⟨nextUserId st1.db, username, hash password, none, true, false⟩
        let st2 := { st1 with
          db := { st1.db with users := st1.db.users ++ [newUser] },
          dbUrlUsed := some targetDbUrl }
        ⟨closeDb st2, .requested, none,
          some "Your request to join the team has been sent."⟩
      else
        ⟨closeDb st1, .insertFailed,
          some "Could not submit join request. Please check the Database URL and try again.", none⟩

/-! ### Schema script (createDatabaseSchema, main.py lines 112-204) -/

/-- `INSERT INTO Roles (role_name) VALUES (%s) ON CONFLICT (role_name) DO NOTHING`. -/
def insertRoleStmt (name : String) (db : Db) : Db :=
  if db.roles.any (fun r => r.role_name = name) then db
  else { db with roles := db.roles ++ [⟨nextRoleId db, name⟩] }

/-- The 19 statements of the schema script, in source order: seven DROP
TABLE, seven CREATE TABLE (no-ops on row contents: a freshly created
table is empty, and the elided tables hold no modelled rows), five role
seeds. -/
def schemaStatements : List (Db → Db) :=
  [ fun db => db,                            -- DROP TABLE GuideVideos (elided table)
    fun db => db,                            -- DROP TABLE Guides (elided table)
    fun db => { db with attendance := [] },  -- DROP TABLE Attendance
    fun db => db,                            -- DROP TABLE Meetings (elided table)
    fun db => { db with users := [] },       -- DROP TABLE Users
    fun db => { db with roles := [] },       -- DROP TABLE Roles
    fun db => { db with teamInfo := [] },    -- DROP TABLE TeamInfo
    fun db => db,                            -- CREATE TABLE TeamInfo
    fun db => db,                            -- CREATE TABLE Roles
    fun db => db,                            -- CREATE TABLE Users
    fun db => db,                            -- CREATE TABLE Meetings
    fun db => db,                            -- CREATE TABLE Attendance
    fun db => db,                            -- CREATE TABLE Guides
    fun db => db,                            -- CREATE TABLE GuideVideos
    insertRoleStmt "Member",
    insertRoleStmt "Software Lead",
    insertRoleStmt "Mechanical Lead",
    insertRoleStmt "Outreach Lead",
    insertRoleStmt "Admin" ]

/-- Execute a statement list one statement at a time on an
`autocommit = True` connection: each executed statement is immediately
durable.  `failAt = some k` injects a database error at statement `k`
(0-based); the first `k` statements remain committed and the rest never
run.  Returns the visible database and whether every statement ran. -/
def runStatements (stmts : List (Db → Db)) (failAt : Option Nat) (db : Db) :
    Db × Bool :=
  match failAt with
  | none => (stmts.foldl (fun d f => f d) db, true)
  | some k => ((stmts.take k).foldl (fun d f => f d) db, stmts.length ≤ k)

/-- `createDatabaseSchema()`: splits the script on semicolons and executes
each command in a loop; on a `psycopg2.Error` it stops, shows the error
and returns `False` (already-executed commands stay committed). -/
def createDatabaseSchema (failAt : Option Nat) (db : Db) : Db × Bool :=
  runStatements schemaStatements failAt db

/-! ### Team creation (LoginFrame.attemptCreateTeam, main.py lines 561-656) -/

inductive CreateOutcome
  | emptyFields
  | badUrl
  | badTeamNumber
  | declinedUnknownTeam
  | connectionFailed
  | declinedWipe
  | schemaFailed
  | creationError
  | created
deriving DecidableEq

structure CreateResult where
  st : AppState
  outcome : CreateOutcome
  errMsg : Option String
  nav : Option String
deriving DecidableEq

/-- `LoginFrame.attemptCreateTeam`.  `hash` is `hashPassword`;
`apiTeamExists` is the `checkFtcTeamExists` result; `confirmUnknown` and
`confirmWipe` are the two `askyesno` confirmation dialogs; `connOk` is
database reachability; `schemaFailAt` injects a failure into the schema
script; `postFailAt` injects a `psycopg2.Error` into the three
post-schema statements (0 = TeamInfo INSERT, 1 = Admin-role SELECT,
2 = admin-user INSERT), each autocommitted individually. -/
def attemptCreateTeam (hash : String → String) (st : AppState)
    (adminUsernameIn adminPassword urlIn teamNumberStrIn teamNameIn teamPassword : String)
    (apiTeamExists confirmUnknown confirmWipe connOk : Bool)
    (schemaFailAt postFailAt : Option Nat) : CreateResult :=
  let adminUsername := pyStrip adminUsernameIn
  let targetDbUrl := pyStrip urlIn
  let teamNumberStr := pyStrip teamNumberStrIn
  let teamName := pyStrip teamNameIn
  if adminUsername = "" ∨ adminPassword = "" ∨ targetDbUrl = "" ∨
      teamNumberStr = "" ∨ teamName = "" ∨ teamPassword = "" then
    ⟨st, .emptyFields, some "All fields are required to create a team.", none⟩
  else if ¬ validPgUrl targetDbUrl then
    ⟨st, .badUrl, some "Invalid PostgreSQL Database URL format.", none⟩
  else
    match pyInt teamNumberStr with
    | none => ⟨st, .badTeamNumber, some "Team Number must be a valid integer.", none⟩
    | some teamNumber =>
      if ¬ apiTeamExists ∧ ¬ confirmUnknown then
        ⟨st, .declinedUnknownTeam, none, none⟩
      else
        match connectDb st connOk with
        | (st1, false) =>
          ⟨st1, .connectionFailed, some "Could not connect to the database.", none⟩
        | (st1, true) =>
          if st1.db.teamInfo ≠ [] ∧ ¬ confirmWipe then
            ⟨closeDb st1, .declinedWipe, none, none⟩
          else
            match createDatabaseSchema schemaFailAt st1.db with
            | (db2, false) =>
              ⟨closeDb { st1 with db := db2 }, .schemaFailed,
                some "Failed to create database schema.", none⟩
            | (db2, true) =>
              let st2 := { st1 with db := db2 }
              if postFailAt = some 0 then
                ⟨closeDb st2, .creationError,
                  some "An error occurred during team creation.", none⟩
              else
                let teamRow : TeamRow := ⟨teamNumber, teamName, hash teamPassword⟩
                let db3 := { db2 with teamInfo := db2.teamInfo ++ [teamRow] }
                if postFailAt = some 1 then
                  ⟨closeDb { st2 with db := db3 }, .creationError,
                    some "An error occurred during team creation.", none⟩
                else
                  let adminRoleId :=
                    (db3.roles.find? (fun r => r.role_name = "Admin")).map
                      (fun r => r.role_id)
                  if postFailAt = some 2 then
                    ⟨closeDb { st2 with db := db3 }, .creationError,
                      some "An error occurred during team creation.", none⟩
                  else
                    let uid := nextUserId db3
                    let newUser : UserRow :=
                      ⟨uid, adminUsername, hash adminPassword, adminRoleId, false, true⟩
                    let db4 := { db3 with users := db3.users ++ [newUser] }
                    let cu : SessionUser := ⟨uid, adminUsername, true, adminRoleId⟩
                    ⟨{ st2 with
                        db := db4
                        currentUser := some cu
                        teamInfo := some (teamNumber, teamName)
                        dbUrlUsed := some targetDbUrl },
                      .created, none, some "DashboardFrame"⟩

/-! ### Admin panel (AdminFrame, main.py lines 1532-1632) -/

structure ShowResult where
  st : AppState
  errMsg : Option String
  nav : Option String
deriving DecidableEq

/-- `AdminFrame.onShow`: the only admin check in the panel.  A session
whose identity is missing or not an admin gets an Access Denied dialog
and is redirected to the dashboard; otherwise the panel loads its lists
(reads only, no row mutation). -/
def adminOnShow (st : AppState) : ShowResult :=
  match st.currentUser with
  | none =>
    ⟨st, some "You do not have permission to access the Admin Panel.",
      some "DashboardFrame"⟩
  | some u =>
    if u.is_admin then ⟨st, none, none⟩
    else
      ⟨st, some "You do not have permission to access the Admin Panel.",
        some "DashboardFrame"⟩

/-- `UPDATE Users SET is_pending = FALSE WHERE user_id = %s AND
is_pending = TRUE` from `approveSelectedUser`. -/
def approveUserStmt (db : Db) (uid : Nat) : Db :=
  { db with users := db.users.map (fun r =>
      if r.user_id = uid ∧ r.is_pending then { r with is_pending := false } else r) }

/-- `DELETE FROM Users WHERE user_id = %s AND is_pending = TRUE` from
`rejectSelectedUser`. -/
def rejectUserStmt (db : Db) (uid : Nat) : Db :=
  { db with users := db.users.filter (fun r => ¬ (r.user_id = uid ∧ r.is_pending)) }

structure AdminOpResult where
  st : AppState
  errMsg : Option String
  infoMsg : Option String
deriving DecidableEq

/-- `AdminFrame.approveSelectedUser`: no admin check of its own —
whatever session is current, a selected pending user plus the
confirmation dialog runs the guarded UPDATE through `executeQuery`
(which only fails if no connection is open). -/
def approveSelectedUser (st : AppState) (selected : Option Nat)
    (confirm : Bool) : AdminOpResult :=
  match selected with
  | none => ⟨st, none, none⟩
  | some uid =>
    if confirm then
      if st.handle.isSome then
        ⟨{ st with db := approveUserStmt st.db uid }, none, some "User approved."⟩
      else
        ⟨st, some "Failed to approve user.", none⟩
    else ⟨st, none, none⟩

/-- `AdminFrame.rejectSelectedUser`: same shape, running the guarded DELETE. -/
def rejectSelectedUser (st : AppState) (selected : Option Nat)
    (confirm : Bool) : AdminOpResult :=
  match selected with
  | none => ⟨st, none, none⟩
  | some uid =>
    if confirm then
      if st.handle.isSome then
        ⟨{ st with db := rejectUserStmt st.db uid }, none,
          some "User request rejected and removed."⟩
      else
        ⟨st, some "Failed to reject user.", none⟩
    else ⟨st, none, none⟩

/-! ### Shared helper lemmas -/

theorem erase_append_fresh (l : List Nat) (c : Nat) (h : c ∉ l) :
    (l ++ [c]).erase c = l := by
  rw [List.erase_append_right _ h]
  simp

/-! ### C9 — connection discipline of connectDb -/

/-- C9 counterexample: starting from the initial state, two successful
calls to `connectDb` (as two consecutive logins perform) leave TWO
connections open at once — the first one is still open and is no longer
the global handle, contradicting the claim that a connection-opening
operation closes the prior connection. -/
theorem connectDb_two_connections_open :
    ((connectDb (connectDb initState true).1 true).1).conns = [0, 1] ∧
    ((connectDb (connectDb initState true).1 true).1).handle = some 1 ∧
    ¬ ((connectDb (connectDb initState true).1 true).1).conns.length ≤ 1 := by
  decide

/-- C9 amended: `connectDb` never closes the prior connection — after a
successful `connectDb` while a connection `c` is open and held in the
global handle, `c` is still open but the handle now names the fresh
connection, so the prior connection is left open and unreachable. -/
theorem connectDb_leaks_prior_connection (st : AppState) (c : Nat)
    (_hh : st.handle = some c) (hm : c ∈ st.conns) :
    c ∈ ((connectDb st true).1).conns ∧
    ((connectDb st true).1).handle = some st.connCounter := by
  constructor
  · simp [connectDb, List.mem_append, hm]
  · simp [connectDb]

/-- C9 amended witness: a state with connection 0 open and held. -/
theorem connectDb_leaks_prior_connection_witness :
    (⟨Db.empty, [0], some 0, 1, none, none, none⟩ : AppState).handle = some 0 ∧
    0 ∈ (⟨Db.empty, [0], some 0, 1, none, none, none⟩ : AppState).conns ∧
    (0 ∈ ((connectDb ⟨Db.empty, [0], some 0, 1, none, none, none⟩ true).1).conns ∧
      ((connectDb ⟨Db.empty, [0], some 0, 1, none, none, none⟩ true).1).handle = some 1) :=
  ⟨rfl, by decide,
    connectDb_leaks_prior_connection ⟨Db.empty, [0], some 0, 1, none, none, none⟩ 0
      rfl (by decide)⟩

/-! ### C10 — the is_pending guard inside the approve / reject statements -/

/-- C10: both pending-request actions carry `AND is_pending = TRUE` in
the statement itself, so when every row with the selected `user_id` has
`is_pending = false` at execution time, the UPDATE of
`approveSelectedUser` modifies no row and the DELETE of
`rejectSelectedUser` deletes no row: the database is unchanged (hence
every other row is unchanged as well). -/
theorem pending_guard_protects_active_users (st : AppState) (uid : Nat)
    (hconn : st.handle.isSome = true)
    (hnp : ∀ r ∈ st.db.users, r.user_id = uid → r.is_pending = false) :
    (approveSelectedUser st (some uid) true).st.db = st.db ∧
    (rejectSelectedUser st (some uid) true).st.db = st.db := by
  have happrove : approveUserStmt st.db uid = st.db := by
    have hid : ∀ r ∈ st.db.users,
        (if r.user_id = uid ∧ r.is_pending then { r with is_pending := false } else r) =
        id r := by
      intro r hr
      rw [if_neg]
      · rfl
      · rintro ⟨h1, h2⟩
        rw [hnp r hr h1] at h2
        exact Bool.false_ne_true h2
    have : st.db.users.map (fun r =>
        if r.user_id = uid ∧ r.is_pending then { r with is_pending := false } else r) =
        st.db.users := by
      rw [List.map_congr_left hid, List.map_id]
    simp only [approveUserStmt, this]
  have hreject : rejectUserStmt st.db uid = st.db := by
    have : st.db.users.filter
        (fun r => ¬ (r.user_id = uid ∧ r.is_pending) : UserRow → Bool) =
        st.db.users := by
      rw [List.filter_eq_self]
      intro r hr
      by_cases h1 : r.user_id = uid
      · simp [h1, hnp r hr h1]
      · simp [h1]
    simp only [rejectUserStmt, this]
  constructor
  · simp [approveSelectedUser, hconn, happrove]
  · simp [rejectSelectedUser, hconn, hreject]

/-- C10 witness: a database where user 3 is active (not pending) and user
4 is someone else; neither pending-request action changes the database. -/
theorem pending_guard_protects_active_users_witness :
    ((⟨⟨[], [], [⟨3, "dana", "h1", none, false, true⟩,
        ⟨4, "erin", "h2", none, true, false⟩], []⟩, [0], some 0, 1,
        none, none, none⟩ : AppState).handle.isSome = true ∧
      (∀ r ∈ (⟨⟨[], [], [⟨3, "dana", "h1", none, false, true⟩,
        ⟨4, "erin", "h2", none, true, false⟩], []⟩, [0], some 0, 1,
        none, none, none⟩ : AppState).db.users, r.user_id = 3 → r.is_pending = false)) ∧
    ((approveSelectedUser (⟨⟨[], [], [⟨3, "dana", "h1", none, false, true⟩,
        ⟨4, "erin", "h2", none, true, false⟩], []⟩, [0], some 0, 1,
        none, none, none⟩ : AppState) (some 3) true).st.db =
      (⟨⟨[], [], [⟨3, "dana", "h1", none, false, true⟩,
        ⟨4, "erin", "h2", none, true, false⟩], []⟩, [0], some 0, 1,
        none, none, none⟩ : AppState).db ∧
      (rejectSelectedUser (⟨⟨[], [], [⟨3, "dana", "h1", none, false, true⟩,
        ⟨4, "erin", "h2", none, true, false⟩], []⟩, [0], some 0, 1,
        none, none, none⟩ : AppState) (some 3) true).st.db =
      (⟨⟨[], [], [⟨3, "dana", "h1", none, false, true⟩,
        ⟨4, "erin", "h2", none, true, false⟩], []⟩, [0], some 0, 1,
        none, none, none⟩ : AppState).db) :=
  ⟨⟨rfl, by decide⟩,
    pending_guard_protects_active_users _ 3 rfl (by decide)⟩

/-! ### C3 — admin authorization gate -/

/-- C3 counterexample: with a NON-admin session identity current,
`approveSelectedUser` on pending user 5 raises no authorization error and
mutates the row (user 5 becomes active): the individual admin operations
perform no is_admin re-check at call time. -/
theorem approve_by_non_admin_mutates :
    (approveSelectedUser
      (⟨⟨[⟨254, "T", "x"⟩], [], [⟨5, "eve", "h", none, true, false⟩], []⟩,
        [0], some 0, 1, some ⟨2, "bob", false, none⟩, some (254, "T"), none⟩ : AppState)
      (some 5) true).st.db.users = [⟨5, "eve", "h", none, false, false⟩] ∧
    (approveSelectedUser
      (⟨⟨[⟨254, "T", "x"⟩], [], [⟨5, "eve", "h", none, true, false⟩], []⟩,
        [0], some 0, 1, some ⟨2, "bob", false, none⟩, some (254, "T"), none⟩ : AppState)
      (some 5) true).errMsg = none ∧
    ((⟨⟨[⟨254, "T", "x"⟩], [], [⟨5, "eve", "h", none, true, false⟩], []⟩,
        [0], some 0, 1, some ⟨2, "bob", false, none⟩, some (254, "T"), none⟩ :
        AppState).currentUser.map (fun u => u.is_admin)) = some false := by
  decide

/-- C3 amended: the only admin check is at panel-show time —
`AdminFrame.onShow` rejects a session whose current identity is missing
or has `is_admin = false` with an Access Denied error, redirects to the
dashboard, and changes no state (hence mutates no row); the individual
admin operations themselves perform no is_admin re-check when invoked. -/
theorem admin_panel_gate_only_on_show (st : AppState)
    (hna : ∀ u, st.currentUser = some u → u.is_admin = false) :
    adminOnShow st =
      ⟨st, some "You do not have permission to access the Admin Panel.",
        some "DashboardFrame"⟩ := by
  unfold adminOnShow
  cases hcu : st.currentUser with
  | none => rfl
  | some u => simp [hna u hcu]

/-- C3 amended witness: a concrete non-admin session is turned away by
the panel with no state change. -/
theorem admin_panel_gate_only_on_show_witness :
    (∀ u, (⟨Db.empty, [0], some 0, 1, some ⟨2, "bob", false, none⟩, none, none⟩ :
        AppState).currentUser = some u → u.is_admin = false) ∧
    adminOnShow (⟨Db.empty, [0], some 0, 1, some ⟨2, "bob", false, none⟩, none, none⟩ :
        AppState) =
      ⟨⟨Db.empty, [0], some 0, 1, some ⟨2, "bob", false, none⟩, none, none⟩,
        some "You do not have permission to access the Admin Panel.",
        some "DashboardFrame"⟩ :=
  ⟨by intro u hu; cases hu; rfl,
    admin_panel_gate_only_on_show _ (by intro u hu; cases hu; rfl)⟩

/-! ### C1 — pending users never authenticate -/

/-- C1: for any password-check function, any state with no session, and
any user row that is first in the lookup for the given username with
`is_pending = true`, a login whose credential check SUCCEEDS returns the
PendingApproval outcome: `currentUser` stays unset, no navigation to the
dashboard happens, the connection opened for the attempt is closed again
(global handle cleared, open-connection set restored). -/
theorem pending_login_no_session (chk : String → String → Bool)
    (st : AppState) (usernameIn password urlEntry : String)
    (u : UserRow) (us : List UserRow)
    (hcu : st.currentUser = none)
    (hfresh : st.connCounter ∉ st.conns)
    (hn : pyStrip usernameIn ≠ "") (hp : password ≠ "")
    (hurl : pyOr st.dbUrlUsed (pyStrip urlEntry) ≠ "")
    (hfind : findUsersByName st.db (pyStrip usernameIn) = u :: us)
    (hpend : u.is_pending = true)
    (hchk : chk password u.hashed_password = true) :
    (attemptLogin chk st usernameIn password urlEntry true).outcome =
      LoginOutcome.pendingApproval ∧
    (attemptLogin chk st usernameIn password urlEntry true).st.currentUser = none ∧
    (attemptLogin chk st usernameIn password urlEntry true).st.handle = none ∧
    (attemptLogin chk st usernameIn password urlEntry true).st.conns = st.conns ∧
    (attemptLogin chk st usernameIn password urlEntry true).nav = none ∧
    (attemptLogin chk st usernameIn password urlEntry true).infoMsg =
      some "Your account is awaiting admin approval." := by
  have hcond : ¬ (pyStrip usernameIn = "" ∨ password = "") := by
    rintro (h | h)
    · exact hn h
    · exact hp h
  unfold attemptLogin
  rw [if_neg hcond, if_neg hurl]
  simp only [connectDb, ite_true]
  rw [hfind]
  simp [hchk, hpend, closeDb, hcu,
    erase_append_fresh st.conns st.connCounter hfresh]

/-- C1 witness: pending user carol with the correct password gets
PendingApproval, no session, no connection left. -/
theorem pending_login_no_session_witness :
    (findUsersByName
        (⟨⟨[⟨254, "T", "x"⟩], [], [⟨7, "carol", "pw", none, true, false⟩], []⟩,
          [], none, 0, none, none, some "postgresql://u:p@h:5432/db"⟩ : AppState).db
        (pyStrip "carol") = [⟨7, "carol", "pw", none, true, false⟩] ∧
      ((fun p h => p == h) : String → String → Bool) "pw" "pw" = true) ∧
    ((attemptLogin (fun p h => p == h)
        (⟨⟨[⟨254, "T", "x"⟩], [], [⟨7, "carol", "pw", none, true, false⟩], []⟩,
          [], none, 0, none, none, some "postgresql://u:p@h:5432/db"⟩ : AppState)
        "carol" "pw" "" true).outcome = LoginOutcome.pendingApproval ∧
      (attemptLogin (fun p h => p == h)
        (⟨⟨[⟨254, "T", "x"⟩], [], [⟨7, "carol", "pw", none, true, false⟩], []⟩,
          [], none, 0, none, none, some "postgresql://u:p@h:5432/db"⟩ : AppState)
        "carol" "pw" "" true).st.currentUser = none ∧
      (attemptLogin (fun p h => p == h)
        (⟨⟨[⟨254, "T", "x"⟩], [], [⟨7, "carol", "pw", none, true, false⟩], []⟩,
          [], none, 0, none, none, some "postgresql://u:p@h:5432/db"⟩ : AppState)
        "carol" "pw" "" true).st.handle = none) :=
  ⟨⟨by decide, by decide⟩, by
    have h := pending_login_no_session (fun p h => p == h)
      (⟨⟨[⟨254, "T", "x"⟩], [], [⟨7, "carol", "pw", none, true, false⟩], []⟩,
        [], none, 0, none, none, some "postgresql://u:p@h:5432/db"⟩ : AppState)
      "carol" "pw" "" ⟨7, "carol", "pw", none, true, false⟩ []
      rfl (by decide) (by decide) (by decide) (by decide) (by decide) rfl (by decide)
    exact ⟨h.1, h.2.1, h.2.2.1⟩⟩

/-! ### C5 — no-such-user and wrong-password are indistinguishable -/

/-- C5: a login against a username with no Users row and a login with a
wrong password against an existing username show the identical
user-visible error dialog text (the literal string of main.py lines 502
and 505) and the same InvalidCredentials outcome, for any database
states, inputs and password-check functions realising the two cases. -/
theorem login_error_message_uniform
    (chk1 chk2 : String → String → Bool) (stA stB : AppState)
    (u1 p1 e1 u2 p2 e2 : String) (row : UserRow) (rows : List UserRow)
    (hn1 : pyStrip u1 ≠ "") (hp1 : p1 ≠ "")
    (hurl1 : pyOr stA.dbUrlUsed (pyStrip e1) ≠ "")
    (habs : findUsersByName stA.db (pyStrip u1) = [])
    (hn2 : pyStrip u2 ≠ "") (hp2 : p2 ≠ "")
    (hurl2 : pyOr stB.dbUrlUsed (pyStrip e2) ≠ "")
    (hex : findUsersByName stB.db (pyStrip u2) = row :: rows)
    (hwrong : chk2 p2 row.hashed_password = false) :
    (attemptLogin chk1 stA u1 p1 e1 true).errMsg =
      (attemptLogin chk2 stB u2 p2 e2 true).errMsg ∧
    (attemptLogin chk1 stA u1 p1 e1 true).errMsg =
      some "Invalid username or password." ∧
    (attemptLogin chk1 stA u1 p1 e1 true).outcome = LoginOutcome.invalidCredentials ∧
    (attemptLogin chk2 stB u2 p2 e2 true).outcome = LoginOutcome.invalidCredentials := by
  have hcond1 : ¬ (pyStrip u1 = "" ∨ p1 = "") := by
    rintro (h | h)
    · exact hn1 h
    · exact hp1 h
  have hcond2 : ¬ (pyStrip u2 = "" ∨ p2 = "") := by
    rintro (h | h)
    · exact hn2 h
    · exact hp2 h
  have hA : (attemptLogin chk1 stA u1 p1 e1 true).errMsg =
      some "Invalid username or password." ∧
      (attemptLogin chk1 stA u1 p1 e1 true).outcome =
        LoginOutcome.invalidCredentials := by
    unfold attemptLogin
    rw [if_neg hcond1, if_neg hurl1]
    simp only [connectDb, ite_true]
    rw [habs]
    exact ⟨rfl, rfl⟩
  have hB : (attemptLogin chk2 stB u2 p2 e2 true).errMsg =
      some "Invalid username or password." ∧
      (attemptLogin chk2 stB u2 p2 e2 true).outcome =
        LoginOutcome.invalidCredentials := by
    unfold attemptLogin
    rw [if_neg hcond2, if_neg hurl2]
    simp only [connectDb, ite_true]
    rw [hex]
    simp [hwrong]
  exact ⟨hA.1.trans hB.1.symm, hA.1, hA.2, hB.2⟩

/-- C5 witness: unknown user dave versus carol with a wrong password —
same dialog text. -/
theorem login_error_message_uniform_witness :
    (findUsersByName
        (⟨⟨[⟨254, "T", "x"⟩], [], [⟨7, "carol", "pw", none, false, false⟩], []⟩,
          [], none, 0, none, none, some "postgresql://u:p@h:5432/db"⟩ : AppState).db
        (pyStrip "dave") = [] ∧
      ((fun p h => p == h) : String → String → Bool) "wrong" "pw" = false) ∧
    ((attemptLogin (fun p h => p == h)
        (⟨⟨[⟨254, "T", "x"⟩], [], [⟨7, "carol", "pw", none, false, false⟩], []⟩,
          [], none, 0, none, none, some "postgresql://u:p@h:5432/db"⟩ : AppState)
        "dave" "guess" "" true).errMsg =
      (attemptLogin (fun p h => p == h)
        (⟨⟨[⟨254, "T", "x"⟩], [], [⟨7, "carol", "pw", none, false, false⟩], []⟩,
          [], none, 0, none, none, some "postgresql://u:p@h:5432/db"⟩ : AppState)
        "carol" "wrong" "" true).errMsg ∧
      (attemptLogin (fun p h => p == h)
        (⟨⟨[⟨254, "T", "x"⟩], [], [⟨7, "carol", "pw", none, false, false⟩], []⟩,
          [], none, 0, none, none, some "postgresql://u:p@h:5432/db"⟩ : AppState)
        "dave" "guess" "" true).errMsg = some "Invalid username or password.") :=
  ⟨⟨by decide, by decide⟩, by
    have h := login_error_message_uniform (fun p h => p == h) (fun p h => p == h)
      (⟨⟨[⟨254, "T", "x"⟩], [], [⟨7, "carol", "pw", none, false, false⟩], []⟩,
        [], none, 0, none, none, some "postgresql://u:p@h:5432/db"⟩ : AppState)
      (⟨⟨[⟨254, "T", "x"⟩], [], [⟨7, "carol", "pw", none, false, false⟩], []⟩,
        [], none, 0, none, none, some "postgresql://u:p@h:5432/db"⟩ : AppState)
      "dave" "guess" "" "carol" "wrong" "" ⟨7, "carol", "pw", none, false, false⟩ []
      (by decide) (by decide) (by decide) (by decide)
      (by decide) (by decide) (by decide) (by decide) (by decide)
    exact ⟨h.1, h.2.1⟩⟩

/-! ### C7 — join requests with a taken username -/

/-- C7: whenever some Users row already carries the (stripped) requested
username, `attemptJoin` ends in the UsernameTaken outcome with the
database unchanged, the session unchanged, and the connection opened for
the attempt closed again; moreover the entire result is independent of
the password-hashing function and of whether the INSERT would have
succeeded — the hash is never computed and nothing is inserted. -/
theorem join_existing_username_rejected
    (hash1 hash2 : String → String) (st : AppState)
    (usernameIn password urlIn : String) (insertOk1 insertOk2 : Bool)
    (row : UserRow) (rows : List UserRow)
    (hfresh : st.connCounter ∉ st.conns)
    (hn : pyStrip usernameIn ≠ "") (hp : password ≠ "") (hu : pyStrip urlIn ≠ "")
    (hurl : validPgUrl (pyStrip urlIn) = true)
    (hex : findUsersByName st.db (pyStrip usernameIn) = row :: rows) :
    (attemptJoin hash1 st usernameIn password urlIn true insertOk1).outcome =
      JoinOutcome.usernameTaken ∧
    (attemptJoin hash1 st usernameIn password urlIn true insertOk1).st.db = st.db ∧
    (attemptJoin hash1 st usernameIn password urlIn true insertOk1).st.currentUser =
      st.currentUser ∧
    (attemptJoin hash1 st usernameIn password urlIn true insertOk1).st.handle = none ∧
    (attemptJoin hash1 st usernameIn password urlIn true insertOk1).st.conns =
      st.conns ∧
    attemptJoin hash1 st usernameIn password urlIn true insertOk1 =
      attemptJoin hash2 st usernameIn password urlIn true insertOk2 := by
  have hcond : ¬ (pyStrip usernameIn = "" ∨ password = "" ∨ pyStrip urlIn = "") := by
    rintro (h | h | h)
    · exact hn h
    · exact hp h
    · exact hu h
  have hrun : ∀ (hash : String → String) (insertOk : Bool),
      attemptJoin hash st usernameIn password urlIn true insertOk =
        ⟨closeDb (connectDb st true).1, .usernameTaken,
          some "Username already exists. Please choose another.", none⟩ := by
    intro hash insertOk
    unfold attemptJoin
    rw [if_neg hcond]
    rw [if_neg (by rw [hurl]; exact fun h => h rfl)]
    simp only [connectDb, ite_true]
    rw [hex]
    simp
  rw [hrun hash1 insertOk1, hrun hash2 insertOk2]
  refine ⟨rfl, ?_, ?_, ?_, ?_, rfl⟩
  · simp [connectDb, closeDb]
  · simp [connectDb, closeDb]
  · simp [connectDb, closeDb]
  · simp [connectDb, closeDb, erase_append_fresh st.conns st.connCounter hfresh]

/-- C7 witness: joining as the existing carol is rejected regardless of
hash function and insert success. -/
theorem join_existing_username_rejected_witness :
    (findUsersByName
        (⟨⟨[⟨254, "T", "x"⟩], [], [⟨7, "carol", "pw", none, false, false⟩], []⟩,
          [], none, 0, none, none, none⟩ : AppState).db
        (pyStrip "carol") = [⟨7, "carol", "pw", none, false, false⟩] ∧
      validPgUrl (pyStrip "postgresql://u:p@h:5432/db") = true) ∧
    ((attemptJoin (fun s => s) (⟨⟨[⟨254, "T", "x"⟩], [],
          [⟨7, "carol", "pw", none, false, false⟩], []⟩,
          [], none, 0, none, none, none⟩ : AppState)
        "carol" "newpw" "postgresql://u:p@h:5432/db" true true).outcome =
      JoinOutcome.usernameTaken ∧
      (attemptJoin (fun s => s) (⟨⟨[⟨254, "T", "x"⟩], [],
          [⟨7, "carol", "pw", none, false, false⟩], []⟩,
          [], none, 0, none, none, none⟩ : AppState)
        "carol" "newpw" "postgresql://u:p@h:5432/db" true true).st.db =
      (⟨⟨[⟨254, "T", "x"⟩], [], [⟨7, "carol", "pw", none, false, false⟩], []⟩,
          [], none, 0, none, none, none⟩ : AppState).db ∧
      attemptJoin (fun s => s) (⟨⟨[⟨254, "T", "x"⟩], [],
          [⟨7, "carol", "pw", none, false, false⟩], []⟩,
          [], none, 0, none, none, none⟩ : AppState)
        "carol" "newpw" "postgresql://u:p@h:5432/db" true true =
      attemptJoin (fun s => s ++ "#") (⟨⟨[⟨254, "T", "x"⟩], [],
          [⟨7, "carol", "pw", none, false, false⟩], []⟩,
          [], none, 0, none, none, none⟩ : AppState)
        "carol" "newpw" "postgresql://u:p@h:5432/db" true false) :=
  ⟨⟨by decide, by decide⟩, by
    have h := join_existing_username_rejected (fun s => s) (fun s => s ++ "#")
      (⟨⟨[⟨254, "T", "x"⟩], [], [⟨7, "carol", "pw", none, false, false⟩], []⟩,
        [], none, 0, none, none, none⟩ : AppState)
      "carol" "newpw" "postgresql://u:p@h:5432/db" true false
      ⟨7, "carol", "pw", none, false, false⟩ []
      (by decide) (by decide) (by decide) (by decide) (by decide) (by decide)
    exact ⟨h.1, h.2.1, h.2.2.2.2.2⟩⟩

/-! ### C6 — successful bootstrap on an empty database -/

/-- The Roles table as seeded by the schema script. -/
def seededRoles : List RoleRow :=
  [⟨1, "Member"⟩, ⟨2, "Software Lead"⟩, ⟨3, "Mechanical Lead"⟩,
    ⟨4, "Outreach Lead"⟩, ⟨5, "Admin"⟩]

theorem schema_on_empty :
    createDatabaseSchema none ⟨[], [], [], []⟩ = (⟨[], seededRoles, [], []⟩, true) := by
  decide

/-- C6: on an empty database, with all fields non-empty, a well-formed
URL, a team number parsing as `n`, the API/override gates passed, and no
injected database failures, `attemptCreateTeam` terminates authenticated
with exactly one TeamInfo row, exactly the five seeded Role rows, and
exactly one Users row, which is the admin: `is_admin = true`,
`is_pending = false`. -/
theorem createTeam_bootstrap_result
    (hash : String → String) (st : AppState)
    (aU aP url tN tName tPw : String) (api cu cw : Bool) (n : Int)
    (hdb : st.db = Db.empty)
    (h1 : pyStrip aU ≠ "") (h2 : aP ≠ "") (h3 : pyStrip url ≠ "")
    (h4 : pyStrip tN ≠ "") (h5 : pyStrip tName ≠ "") (h6 : tPw ≠ "")
    (hurl : validPgUrl (pyStrip url) = true)
    (hnum : pyInt (pyStrip tN) = some n)
    (hapi : api = true ∨ cu = true) :
    (attemptCreateTeam hash st aU aP url tN tName tPw api cu cw true
        none none).outcome = CreateOutcome.created ∧
    (attemptCreateTeam hash st aU aP url tN tName tPw api cu cw true
        none none).st.db.teamInfo = [⟨n, pyStrip tName, hash tPw⟩] ∧
    (attemptCreateTeam hash st aU aP url tN tName tPw api cu cw true
        none none).st.db.roles = seededRoles ∧
    (attemptCreateTeam hash st aU aP url tN tName tPw api cu cw true
        none none).st.db.users = [⟨1, pyStrip aU, hash aP, some 5, false, true⟩] ∧
    (attemptCreateTeam hash st aU aP url tN tName tPw api cu cw true
        none none).st.currentUser = some ⟨1, pyStrip aU, true, some 5⟩ := by
  have hcond1 : ¬ (pyStrip aU = "" ∨ aP = "" ∨ pyStrip url = "" ∨
      pyStrip tN = "" ∨ pyStrip tName = "" ∨ tPw = "") := by
    push_neg
    exact ⟨h1, h2, h3, h4, h5, h6⟩
  have hcond3 : ¬ (¬ api = true ∧ ¬ cu = true) := by
    rcases hapi with h | h
    · exact fun hc => hc.1 h
    · exact fun hc => hc.2 h
  have main : attemptCreateTeam hash st aU aP url tN tName tPw api cu cw true
      none none =
      ⟨⟨⟨[⟨n, pyStrip tName, hash tPw⟩], seededRoles,
          [⟨1, pyStrip aU, hash aP, some 5, false, true⟩], []⟩,
        st.conns ++ [st.connCounter], some st.connCounter, st.connCounter + 1,
        some ⟨1, pyStrip aU, true, some 5⟩, some (n, pyStrip tName),
        some (pyStrip url)⟩,
        CreateOutcome.created, none, some "DashboardFrame"⟩ := by
    unfold attemptCreateTeam
    rw [if_neg hcond1, if_neg (not_not_intro hurl), hnum]
    simp only [connectDb, ite_true]
    rw [if_neg hcond3]
    simp [hdb, Db.empty, schema_on_empty, seededRoles, nextUserId]
  rw [main]
  exact ⟨rfl, rfl, rfl, rfl, rfl⟩

/-- C6 witness: the spec example `CreateTeam(url, 254, RoboDevils, ...)`
on the empty initial state. -/
theorem createTeam_bootstrap_result_witness :
    (initState.db = Db.empty ∧
      pyInt (pyStrip "254") = some 254 ∧
      validPgUrl (pyStrip "postgresql://u:p@h:5432/db") = true) ∧
    ((attemptCreateTeam (fun s => String.append s "#") initState
        "alice" "alicepw" "postgresql://u:p@h:5432/db" "254" "RoboDevils" "teampw"
        true true true true none none).outcome = CreateOutcome.created ∧
      (attemptCreateTeam (fun s => String.append s "#") initState
        "alice" "alicepw" "postgresql://u:p@h:5432/db" "254" "RoboDevils" "teampw"
        true true true true none none).st.db.teamInfo =
        [⟨254, pyStrip "RoboDevils", String.append "teampw" "#"⟩] ∧
      (attemptCreateTeam (fun s => String.append s "#") initState
        "alice" "alicepw" "postgresql://u:p@h:5432/db" "254" "RoboDevils" "teampw"
        true true true true none none).st.db.roles = seededRoles ∧
      (attemptCreateTeam (fun s => String.append s "#") initState
        "alice" "alicepw" "postgresql://u:p@h:5432/db" "254" "RoboDevils" "teampw"
        true true true true none none).st.db.users =
        [⟨1, pyStrip "alice", String.append "alicepw" "#", some 5, false, true⟩]) :=
  ⟨⟨rfl, by decide, by decide⟩, by
    have h := createTeam_bootstrap_result (fun s => String.append s "#") initState
      "alice" "alicepw" "postgresql://u:p@h:5432/db" "254" "RoboDevils" "teampw"
      true true true 254
      rfl (by decide) (by decide) (by decide) (by decide) (by decide) (by decide)
      (by decide) (by decide) (Or.inl rfl)
    exact ⟨h.1, h.2.1, h.2.2.1, h.2.2.2.1⟩⟩

/-! ### C2 — CreateTeam is not atomic -/

/-- C2 counterexample: with every input valid on an empty database, a
database error at the admin-user INSERT (the last bootstrap statement)
makes `attemptCreateTeam` report CreationFailed — yet the TeamInfo row
and the seeded Roles are still visible in the database while the Users
table is empty: a half-created team (Team row without its admin User
row) remains, because every statement was autocommitted individually. -/
theorem createTeam_partial_state_visible :
    (attemptCreateTeam (fun s => s) initState
        "alice" "alicepw" "postgresql://u:p@h:5432/db" "254" "RoboDevils" "teampw"
        true true true true none (some 2)).outcome = CreateOutcome.creationError ∧
    (attemptCreateTeam (fun s => s) initState
        "alice" "alicepw" "postgresql://u:p@h:5432/db" "254" "RoboDevils" "teampw"
        true true true true none (some 2)).st.db.teamInfo =
      [⟨254, "RoboDevils", "teampw"⟩] ∧
    (attemptCreateTeam (fun s => s) initState
        "alice" "alicepw" "postgresql://u:p@h:5432/db" "254" "RoboDevils" "teampw"
        true true true true none (some 2)).st.db.users = [] := by
  decide

/-- C2 amended: each bootstrap statement autocommits individually; when a
step fails the operation is abandoned and reported (CreationFailed) and
the connection is closed, but the statements already executed stay
committed — a failure at the admin-user INSERT leaves exactly the
TeamInfo row and the seeded Roles with no Users row visible. -/
theorem createTeam_admin_insert_failure_leaves_partial_state
    (hash : String → String) (st : AppState)
    (aU aP url tN tName tPw : String) (api cu cw : Bool) (n : Int)
    (hdb : st.db = Db.empty)
    (hfresh : st.connCounter ∉ st.conns)
    (h1 : pyStrip aU ≠ "") (h2 : aP ≠ "") (h3 : pyStrip url ≠ "")
    (h4 : pyStrip tN ≠ "") (h5 : pyStrip tName ≠ "") (h6 : tPw ≠ "")
    (hurl : validPgUrl (pyStrip url) = true)
    (hnum : pyInt (pyStrip tN) = some n)
    (hapi : api = true ∨ cu = true) :
    (attemptCreateTeam hash st aU aP url tN tName tPw api cu cw true
        none (some 2)).outcome = CreateOutcome.creationError ∧
    (attemptCreateTeam hash st aU aP url tN tName tPw api cu cw true
        none (some 2)).st.db.teamInfo = [⟨n, pyStrip tName, hash tPw⟩] ∧
    (attemptCreateTeam hash st aU aP url tN tName tPw api cu cw true
        none (some 2)).st.db.roles = seededRoles ∧
    (attemptCreateTeam hash st aU aP url tN tName tPw api cu cw true
        none (some 2)).st.db.users = [] ∧
    (attemptCreateTeam hash st aU aP url tN tName tPw api cu cw true
        none (some 2)).st.handle = none ∧
    (attemptCreateTeam hash st aU aP url tN tName tPw api cu cw true
        none (some 2)).st.conns = st.conns ∧
    (attemptCreateTeam hash st aU aP url tN tName tPw api cu cw true
        none (some 2)).st.currentUser = st.currentUser := by
  have hcond1 : ¬ (pyStrip aU = "" ∨ aP = "" ∨ pyStrip url = "" ∨
      pyStrip tN = "" ∨ pyStrip tName = "" ∨ tPw = "") := by
    push_neg
    exact ⟨h1, h2, h3, h4, h5, h6⟩
  have hcond3 : ¬ (¬ api = true ∧ ¬ cu = true) := by
    rcases hapi with h | h
    · exact fun hc => hc.1 h
    · exact fun hc => hc.2 h
  have main : attemptCreateTeam hash st aU aP url tN tName tPw api cu cw true
      none (some 2) =
      ⟨⟨⟨[⟨n, pyStrip tName, hash tPw⟩], seededRoles, [], []⟩,
        (st.conns ++ [st.connCounter]).erase st.connCounter, none,
        st.connCounter + 1, st.currentUser, st.teamInfo, st.dbUrlUsed⟩,
        CreateOutcome.creationError,
        some "An error occurred during team creation.", none⟩ := by
    unfold attemptCreateTeam
    rw [if_neg hcond1, if_neg (not_not_intro hurl), hnum]
    simp only [connectDb, ite_true]
    rw [if_neg hcond3]
    simp [hdb, Db.empty, schema_on_empty, seededRoles, closeDb]
  rw [main]
  exact ⟨rfl, rfl, rfl, rfl, rfl,
    erase_append_fresh st.conns st.connCounter hfresh, rfl⟩

/-- C2 amended witness: the counterexample inputs, derived through the
general amended theorem. -/
theorem createTeam_admin_insert_failure_witness :
    (initState.db = Db.empty ∧ pyInt (pyStrip "254") = some 254) ∧
    ((attemptCreateTeam (fun s => s) initState
        "alice" "alicepw" "postgresql://u:p@h:5432/db" "254" "RoboDevils" "teampw"
        true true true true none (some 2)).outcome = CreateOutcome.creationError ∧
      (attemptCreateTeam (fun s => s) initState
        "alice" "alicepw" "postgresql://u:p@h:5432/db" "254" "RoboDevils" "teampw"
        true true true true none (some 2)).st.db.teamInfo =
        [⟨254, pyStrip "RoboDevils", "teampw"⟩] ∧
      (attemptCreateTeam (fun s => s) initState
        "alice" "alicepw" "postgresql://u:p@h:5432/db" "254" "RoboDevils" "teampw"
        true true true true none (some 2)).st.db.users = [] ∧
      (attemptCreateTeam (fun s => s) initState
        "alice" "alicepw" "postgresql://u:p@h:5432/db" "254" "RoboDevils" "teampw"
        true true true true none (some 2)).st.handle = none) :=
  ⟨⟨rfl, by decide⟩, by
    have h := createTeam_admin_insert_failure_leaves_partial_state
      (fun s => s) initState
      "alice" "alicepw" "postgresql://u:p@h:5432/db" "254" "RoboDevils" "teampw"
      true true true 254
      rfl (by decide) (by decide) (by decide) (by decide) (by decide) (by decide)
      (by decide) (by decide) (by decide) (Or.inl rfl)
    exact ⟨h.1, h.2.1, h.2.2.2.1, h.2.2.2.2.1⟩⟩

/-! ### C8 — team-number validation accepts zero and negatives -/

/-- C8 counterexample: teamNumber "0" passes local validation — far from
being rejected with InvalidInput before any network or database call,
the whole operation proceeds and creates the team with team_number 0
(and "-5" behaves the same way): only inputs on which `int()` raises are
rejected. -/
theorem createTeam_accepts_zero_team_number :
    (attemptCreateTeam (fun s => s) initState
        "alice" "alicepw" "postgresql://u:p@h:5432/db" "0" "RoboDevils" "teampw"
        true true true true none none).outcome = CreateOutcome.created ∧
    (attemptCreateTeam (fun s => s) initState
        "alice" "alicepw" "postgresql://u:p@h:5432/db" "0" "RoboDevils" "teampw"
        true true true true none none).st.db.teamInfo =
      [⟨0, "RoboDevils", "teampw"⟩] ∧
    (attemptCreateTeam (fun s => s) initState
        "alice" "alicepw" "postgresql://u:p@h:5432/db" "-5" "RoboDevils" "teampw"
        true true true true none none).st.db.teamInfo =
      [⟨-5, "RoboDevils", "teampw"⟩] := by
  decide

/-- C8 amended: the validation rejects with InvalidInput — before any
network or database call and with the whole state untouched — exactly
the teamNumber inputs that do not parse as an integer at all; inputs
parsing as zero or a negative integer pass the check and proceed. -/
theorem createTeam_rejects_non_integer_team_number
    (hash : String → String) (st : AppState)
    (aU aP url tN tName tPw : String)
    (api cu cw connOk : Bool) (sfa pfa : Option Nat)
    (h1 : pyStrip aU ≠ "") (h2 : aP ≠ "") (h3 : pyStrip url ≠ "")
    (h4 : pyStrip tN ≠ "") (h5 : pyStrip tName ≠ "") (h6 : tPw ≠ "")
    (hurl : validPgUrl (pyStrip url) = true)
    (hbad : pyInt (pyStrip tN) = none) :
    attemptCreateTeam hash st aU aP url tN tName tPw api cu cw connOk sfa pfa =
      ⟨st, CreateOutcome.badTeamNumber,
        some "Team Number must be a valid integer.", none⟩ := by
  have hcond1 : ¬ (pyStrip aU = "" ∨ aP = "" ∨ pyStrip url = "" ∨
      pyStrip tN = "" ∨ pyStrip tName = "" ∨ tPw = "") := by
    push_neg
    exact ⟨h1, h2, h3, h4, h5, h6⟩
  unfold attemptCreateTeam
  rw [if_neg hcond1, if_neg (not_not_intro hurl), hbad]

/-- C8 amended witness: "7x" is rejected with state untouched. -/
theorem createTeam_rejects_non_integer_team_number_witness :
    (pyInt (pyStrip "7x") = none ∧
      validPgUrl (pyStrip "postgresql://u:p@h:5432/db") = true) ∧
    attemptCreateTeam (fun s => s) initState
      "alice" "alicepw" "postgresql://u:p@h:5432/db" "7x" "RoboDevils" "teampw"
      true true true true none none =
      ⟨initState, CreateOutcome.badTeamNumber,
        some "Team Number must be a valid integer.", none⟩ :=
  ⟨⟨by decide, by decide⟩,
    createTeam_rejects_non_integer_team_number (fun s => s) initState
      "alice" "alicepw" "postgresql://u:p@h:5432/db" "7x" "RoboDevils" "teampw"
      true true true true none none
      (by decide) (by decide) (by decide) (by decide) (by decide) (by decide)
      (by decide) (by decide)⟩
